import Mathlib

/-!
Shallow embedding of the video-generator core
(`src/components/VideoGenerator.tsx`) and proofs about it.

The component renders an animated scene to a canvas and captures it with a
MediaRecorder.  We embed:

* the session controller `startRecording` (lines 153-204) over a record of the
  React state/refs it mutates, with wall-clock times and rates as rationals;
* the clock tick of `animate` (lines 131-134) as the pure function
  `tickProgress` from (start, total, now) to the value passed to `setProgress`;
* the chunk handler `mr.ondataavailable` (lines 178-182) and the finalizer
  `mr.onstop` (lines 183-192) over byte lists;
* the frame renderer `drawFrame` (lines 49-127) as a pure function from
  (config, timestamp) to the list of canvas drawing commands it issues,
  over real numbers, with `Math.sin` as `Real.sin`, `Math.floor` as `Int.floor`
  and the float remainder `%` of JavaScript (for the non-negative operands it
  is applied to) as `jsFmod`.
-/

/-- Ordered codec/MIME preference list (`mimeTypes`, lines 168-173). -/
def mimeTypes : List String :=
  ["video/webm;codecs=vp9", "video/webm;codecs=vp8", "video/webm", "video/mp4"]

/-- Options passed to the `MediaRecorder` constructor when a supported MIME
type was found (line 175). -/
structure RecorderOptions where
  mimeType : String
  videoBitsPerSecond : ℕ
  deriving DecidableEq

/-- The constructed `MediaRecorder`: its constructor options (`none` models the
`undefined` second argument) and the timeslice passed to `mr.start` (line 202). -/
structure Recorder where
  options : Option RecorderOptions
  timeslice : ℚ
  deriving DecidableEq

/-- The React state and refs of `VideoGenerator` that `startRecording` touches.
`blobUrl` is the object-URL handle of the current artifact (`none` = released /
never created); `revoked` records every handle passed to `URL.revokeObjectURL`. -/
structure SessionState where
  canvasPresent : Bool
  isRecording : Bool
  progress : ℚ
  blobUrl : Option ℕ
  blobSize : ℕ
  chunks : List (List ℕ)
  recorder : Option Recorder
  startTime : ℚ
  revoked : List ℕ
  deriving DecidableEq

/-- The `startRecording` callback (lines 153-204).  Guards: missing canvas
(line 154) and `isRecording` (line 155) return without any side effect.
Otherwise: the previous blob URL is revoked and cleared (lines 158-162),
the chunk buffer is reset (line 167), the first supported MIME type is chosen
(line 174) and the recorder is built with those options or with `undefined`
(line 175), recording is flagged, progress reset and the start timestamp taken
(lines 194-198), and the recorder is started with timeslice
`max (1000 / fps) 16` (line 202). -/
def startRecording (isTypeSupported : String → Bool) (fps now : ℚ)
    (s : SessionState) : SessionState :=
  if s.canvasPresent = false then s
  else if s.isRecording = true then s
  else
    { canvasPresent := s.canvasPresent
      isRecording := true
      progress := 0
      blobUrl := none
      blobSize := 0
      chunks := []
      recorder := some
        { options := (mimeTypes.find? isTypeSupported).map
            (fun m => { mimeType := m, videoBitsPerSecond := 6000000 })
          timeslice := max (1000 / fps) 16 }
      startTime := now
      revoked := s.revoked ++ s.blobUrl.toList }

/-- The value handed to `setProgress` by one tick of the `animate` loop
(lines 131-134): `elapsed = now - startTime`, `clamped = min elapsed totalMs`,
reported value `clamped / totalMs * 100`. -/
def tickProgress (startTime totalMs now : ℚ) : ℚ :=
  min (now - startTime) totalMs / totalMs * 100

/-- The chunk handler `mr.ondataavailable` (lines 178-182): a chunk is appended
to the buffer only when the event carries data (`e.data`, modelled by `some`)
of positive size. -/
def onDataAvailable (buffer : List (List ℕ)) (eventData : Option (List ℕ)) :
    List (List ℕ) :=
  match eventData with
  | some d => if 0 < d.length then buffer ++ [d] else buffer
  | none => buffer

/-- Folding `onDataAvailable` over a sequence of `dataavailable` events. -/
def processEvents (buffer : List (List ℕ)) (events : List (Option (List ℕ))) :
    List (List ℕ) :=
  events.foldl onDataAvailable buffer

/-- The artifact minted by `mr.onstop` (lines 183-192): chunk bytes and the
blob metadata exposed to the UI. -/
structure EncodedArtifact where
  data : List ℕ
  size : ℕ
  mimeType : String
  deriving DecidableEq

/-- The `mr.onstop` finalizer (lines 183-192): the buffered chunks are
concatenated into one blob whose size the Blob API reports as the total byte
count, typed `mr.mimeType || "video/webm"` (the empty string is falsy). -/
def onstopArtifact (chunks : List (List ℕ)) (recorderMime : String) :
    EncodedArtifact :=
  { data := chunks.flatten
    size := chunks.flatten.length
    mimeType := if recorderMime = "" then "video/webm" else recorderMime }

/-- A canvas color as written in the source: an `rgba(...)`/`hsla(...)` template
string is modelled structurally by the numbers interpolated into it, a literal
string by `hex`. -/
inductive CanvasColor where
  | rgba (r g b alpha : ℝ)
  | hsla (hue sat light alpha : ℝ)
  | hex (code : String)

/-- One `addColorStop` call on a gradient. -/
structure GradientStop where
  offset : ℝ
  color : CanvasColor

/-- The `fillStyle` in force when a fill is issued. -/
inductive FillStyle where
  | linearGradient (x0 y0 x1 y1 : ℝ) (stops : List GradientStop)
  | radialGradient (x0 y0 r0 x1 y1 r1 : ℝ) (stops : List GradientStop)
  | solid (color : CanvasColor)

/-- A drawing command issued by `drawFrame`, carrying the stateful context
attributes (fill style, font size, shadow blur, line width) that are in force
when it executes.  `fillCircle` is the `beginPath`/`arc`/`fill` triple. -/
inductive DrawCmd where
  | fillRect (style : FillStyle) (x y w h : ℝ)
  | fillCircle (style : FillStyle) (x y radius : ℝ)
  | fillText (style : FillStyle) (text : String) (x y : ℝ)
      (fontSizePx : ℤ) (shadowBlur : ℝ)
  | strokeRect (color : CanvasColor) (lineWidth x y w h : ℝ)

/-- The configuration `drawFrame` closes over: `prompt`, `subtitle`, `bgStyle`
and the selected resolution's `width`/`height` (line 126's dependency list). -/
structure RenderConfig where
  prompt : String
  subtitle : String
  bgStyle : String
  width : ℝ
  height : ℝ

/-- The particle pseudo-random generator `rnd` (lines 64-66):
`Math.abs(Math.sin(seed * 9999.91))`. -/
noncomputable def rnd (seed : ℝ) : ℝ := |Real.sin (seed * 9999.91)|

/-- JavaScript's `%` on the non-negative operands it gets in `drawFrame`
(for `a ≥ 0`, `b > 0` the truncated remainder coincides with `a - b⌊a/b⌋`). -/
noncomputable def jsFmod (a b : ℝ) : ℝ := a - b * ⌊a / b⌋

/-- Per-particle seed `s = i * 13.37 + t * 0.12` (line 68). -/
noncomputable def particleSeed (i : ℕ) (t : ℝ) : ℝ := i * 13.37 + t * 0.12

/-- Particle x-coordinate `(rnd(s) * width) % width` (line 69). -/
noncomputable def particleX (i : ℕ) (t w : ℝ) : ℝ :=
  jsFmod (rnd (particleSeed i t) * w) w

/-- Particle y-coordinate `(rnd(s + 42) * height) % height` (line 70). -/
noncomputable def particleY (i : ℕ) (t h : ℝ) : ℝ :=
  jsFmod (rnd (particleSeed i t + 42) * h) h

/-- Particle radius `0.5 + rnd(s + 99) * 2.5` (line 71). -/
noncomputable def particleRadius (i : ℕ) (t : ℝ) : ℝ :=
  0.5 + rnd (particleSeed i t + 99) * 2.5

/-- Particle hue `Math.floor(200 + 55 * rnd(s + 7))` (line 72). -/
noncomputable def particleHue (i : ℕ) (t : ℝ) : ℤ :=
  ⌊(200 : ℝ) + 55 * rnd (particleSeed i t + 7)⌋

/-- The background block of `drawFrame` (lines 51-93), by `bgStyle` branch.
In the Aurora branch the source computes three sinusoids `a`, `b`, `c`
(lines 54-56); `a` and `b` are interpolated into the two gradient stop colors,
`c = Math.sin(t * 0.0007 + 2.7) * 0.5 + 0.5` is computed but not interpolated
anywhere. -/
noncomputable def backgroundCmds (cfg : RenderConfig) (t : ℝ) : List DrawCmd :=
  if cfg.bgStyle = "Aurora" then
    [DrawCmd.fillRect
      (FillStyle.linearGradient 0 0 cfg.width cfg.height
        [⟨0, CanvasColor.rgba (↑⌊40 + 80 * (Real.sin (t * 0.0006) * 0.5 + 0.5)⌋)
            80 255 0.9⟩,
         ⟨1, CanvasColor.rgba 10
            (↑⌊40 + 140 * (Real.sin (t * 0.0009 + 1.2) * 0.5 + 0.5)⌋) 120 0.9⟩])
      0 0 cfg.width cfg.height]
  else if cfg.bgStyle = "Particles" then
    DrawCmd.fillRect (FillStyle.solid (CanvasColor.hex "#030614"))
      0 0 cfg.width cfg.height ::
    (List.range 300).map (fun i =>
      DrawCmd.fillCircle
        (FillStyle.solid (CanvasColor.hsla (↑(particleHue i t)) 80 65 0.8))
        (particleX i t cfg.width) (particleY i t cfg.height)
        (particleRadius i t))
  else
    [DrawCmd.fillRect
      (FillStyle.radialGradient (cfg.width * 0.2) (cfg.height * 0.2) 50
        (cfg.width * 0.5) (cfg.height * 0.6) (max cfg.width cfg.height)
        [⟨0, CanvasColor.rgba 20
            (80 + 100 * (Real.sin (t * 0.0005 + 0) * 0.5 + 0.5)) 255 0.8⟩,
         ⟨1, CanvasColor.rgba 5 10
            (60 + 120 * (Real.sin (t * 0.0005 + 1.3) * 0.5 + 0.5)) 1⟩])
      0 0 cfg.width cfg.height]

/-- The text block of `drawFrame` (lines 95-118): title with empty-falls-back
placeholder (`prompt.trim() || "Your animated title"`, line 96) and the
subtitle drawn only when `subtitle.trim()` is truthy, i.e. non-empty
(lines 97, 113). -/
noncomputable def textCmds (cfg : RenderConfig) (t : ℝ) : List DrawCmd :=
  let title := if cfg.prompt.trim = "" then "Your animated title"
    else cfg.prompt.trim
  let sub := cfg.subtitle.trim
  let centerX := cfg.width / 2
  let centerY := cfg.height / 2
  let wobble := Real.sin (t * 0.003) * 6
  DrawCmd.fillText (FillStyle.solid (CanvasColor.hex "#ffffff")) title
      centerX (centerY + wobble) ⌊min cfg.width cfg.height * 0.07⌋ 20 ::
  (if sub = "" then []
   else [DrawCmd.fillText (FillStyle.solid (CanvasColor.hex "#cfe3ff")) sub
      centerX (centerY + 40 + wobble * 0.5) ⌊min cfg.width cfg.height * 0.03⌋ 10])

/-- The framing border of `drawFrame` (lines 120-124). -/
noncomputable def borderCmds (cfg : RenderConfig) : List DrawCmd :=
  [DrawCmd.strokeRect (CanvasColor.rgba 255 255 255 0.12) 2
    12 12 (cfg.width - 24) (cfg.height - 24)]

/-- The frame renderer `drawFrame` (lines 49-127) as the ordered list of
drawing commands it issues for a given timestamp `t` and configuration. -/
noncomputable def drawFrame (cfg : RenderConfig) (t : ℝ) : List DrawCmd :=
  backgroundCmds cfg t ++ textCmds cfg t ++ borderCmds cfg

/-- The string drawn by a command, when it is a `fillText`. -/
def drawnText (c : DrawCmd) : Option String :=
  match c with
  | DrawCmd.fillText _ s _ _ _ _ => some s
  | _ => none

/-- All strings drawn by a frame, in drawing order. -/
noncomputable def textsDrawn (cfg : RenderConfig) (t : ℝ) : List String :=
  (drawFrame cfg t).filterMap drawnText

/-- An idle session with a previously completed artifact, as left by a finished
run: canvas mounted, not recording, a live blob handle. -/
def idleSession : SessionState :=
  { canvasPresent := true
    isRecording := false
    progress := 0
    blobUrl := some 7
    blobSize := 4096
    chunks := [[1, 2], [3]]
    recorder := none
    startTime := 0
    revoked := [] }

/-- A session in the middle of a recording. -/
def recordingSession : SessionState :=
  { canvasPresent := true
    isRecording := true
    progress := 40
    blobUrl := none
    blobSize := 0
    chunks := [[9, 9]]
    recorder := some { options := none, timeslice := 33 }
    startTime := 100
    revoked := [3] }

/-- C5: the artifact minted by `onstop` has size equal to the sum of the sizes
of all buffered chunks, and finalizing an empty buffer yields a zero-size
artifact (it does not fail: `onstopArtifact` is total). -/
theorem finalize_size_eq_sum_chunks (chunks : List (List ℕ)) (m : String) :
    (onstopArtifact chunks m).size = (chunks.map List.length).sum ∧
    (onstopArtifact ([] : List (List ℕ)) m).size = 0 := by
  constructor
  · simp [onstopArtifact]
  · rfl

/-- C8: after any sequence of `dataavailable` events, the buffer equals its
previous contents followed by exactly the delivered (non-null) chunks of
positive size, in delivery order: zero-size chunks are dropped, nothing is
reordered, and the buffer is append-only. -/
theorem chunk_buffer_positive_in_order (events : List (Option (List ℕ)))
    (buffer : List (List ℕ)) :
    processEvents buffer events =
      buffer ++ (events.filterMap id).filter (fun d => decide (0 < d.length)) := by
  induction events generalizing buffer with
  | nil => simp [processEvents]
  | cons e es ih =>
    cases e with
    | none =>
      simpa [processEvents, onDataAvailable, List.foldl_cons] using ih buffer
    | some d =>
      by_cases hd : 0 < d.length
      · have := ih (buffer ++ [d])
        simp only [processEvents, List.foldl_cons, onDataAvailable, if_pos hd] at this ⊢
        rw [this]
        simp [hd]
      · have := ih buffer
        simp only [processEvents, List.foldl_cons, onDataAvailable, if_neg hd] at this ⊢
        rw [this]
        simp [hd]

/-- C2, counterexample: at start 0, total 1000 ms, tick at now = 500 the code
reports 50 (a percentage), not the fraction `min (now - s) total / total = 1/2`
claimed by the spec. -/
theorem tickProgress_not_fraction :
    tickProgress 0 1000 500 ≠ min ((500 : ℚ) - 0) 1000 / 1000 := by
  simp [tickProgress, min_def]
  norm_num

/-- C2, amended: after every tick the reported progress value equals
`100 * (min (now - s) total / total)` — one hundred times the spec's fraction —
and that fraction does lie in [0, 1] for every tick timestamp `now ≥ s`. -/
theorem tickProgress_percent_of_fraction (s total now : ℚ)
    (ht : 0 < total) (hn : s ≤ now) :
    tickProgress s total now = 100 * (min (now - s) total / total) ∧
    0 ≤ min (now - s) total / total ∧ min (now - s) total / total ≤ 1 := by
  refine ⟨by unfold tickProgress; ring, ?_, ?_⟩
  · exact div_nonneg (le_min (by linarith) ht.le) ht.le
  · rw [div_le_one ht]
    exact min_le_right _ _

/-- Witness for `tickProgress_percent_of_fraction` at s = 0, total = 1000,
now = 250. -/
theorem tickProgress_percent_of_fraction_witness :
    tickProgress 0 1000 250 = 100 * (min ((250 : ℚ) - 0) 1000 / 1000) ∧
    0 ≤ min ((250 : ℚ) - 0) 1000 / 1000 ∧ min ((250 : ℚ) - 0) 1000 / 1000 ≤ 1 :=
  tickProgress_percent_of_fraction 0 1000 250 (by norm_num) (by norm_num)

/-- C4, counterexample: at the tick that triggers completion (elapsed = total)
the code reports exactly 100, not the 1.0 the spec claims. -/
theorem tickProgress_completion_not_one :
    tickProgress 0 1000 1000 = 100 ∧ tickProgress 0 1000 1000 ≠ 1 := by
  constructor
  · simp [tickProgress, min_def]
  · simp [tickProgress, min_def]

/-- C4, amended: over any non-decreasing sequence of tick timestamps the
reported progress values are monotonically non-decreasing, and at any tick
whose elapsed time reaches or exceeds the total duration (the tick that
triggers completion) the reported value equals exactly 100, i.e. the full bar
(the fraction 1.0 scaled by the code's factor 100). -/
theorem tickProgress_monotone_and_complete (s total : ℚ) (ht : 0 < total)
    (ticks : List ℚ) (hticks : ticks.Sorted (· ≤ ·))
    (now : ℚ) (hnow : total ≤ now - s) :
    (ticks.map (tickProgress s total)).Sorted (· ≤ ·) ∧
    tickProgress s total now = 100 := by
  constructor
  · refine List.Pairwise.map _ ?_ hticks
    intro a b hab
    unfold tickProgress
    have hmin : min (a - s) total ≤ min (b - s) total :=
      min_le_min (by linarith) le_rfl
    have hdiv : min (a - s) total / total ≤ min (b - s) total / total :=
      (div_le_div_iff_of_pos_right ht).mpr hmin
    nlinarith
  · unfold tickProgress
    rw [min_eq_right hnow, div_self ht.ne']
    norm_num

/-- Witness for `tickProgress_monotone_and_complete`: s = 0, total = 1000,
ticks 0, 400, 1100, completion tick at now = 1200. -/
theorem tickProgress_monotone_and_complete_witness :
    (([0, 400, 1100] : List ℚ).map (tickProgress 0 1000)).Sorted (· ≤ ·) ∧
    tickProgress 0 1000 1200 = 100 :=
  tickProgress_monotone_and_complete 0 1000 (by norm_num) [0, 400, 1100]
    (by simp [List.Sorted]; norm_num) 1200 (by norm_num)

/-- C1, counterexample: when no MIME type in the preference list is supported
(`isTypeSupported` is constantly false), `startRecording` on an idle session
does not fail — it transitions to Recording, contradicting the claim that the
session remains Idle with an `UnsupportedFormat` condition. -/
theorem startRecording_no_support_still_records :
    (startRecording (fun _ => false) 30 0 idleSession).isRecording = true := by
  decide

/-- C1, amended: if no MIME type in the ordered preference list is supported,
`startRecording` does not fail fast; it constructs the recorder with default
options (the `undefined` branch of line 175, modelled as `options = none`) and
the session transitions to Recording. -/
theorem startRecording_default_options_fallback (f : String → Bool)
    (fps now : ℚ) (s : SessionState) (hf : ∀ m ∈ mimeTypes, f m = false)
    (hcv : s.canvasPresent = true) (hrec : s.isRecording = false) :
    (startRecording f fps now s).isRecording = true ∧
    (startRecording f fps now s).recorder =
      some { options := none, timeslice := max (1000 / fps) 16 } := by
  have hfind : mimeTypes.find? f = none := by
    rw [List.find?_eq_none]
    intro x hx
    simp [hf x hx]
  simp [startRecording, hcv, hrec, hfind]

/-- Witness for `startRecording_default_options_fallback` on `idleSession`
with the constantly-false support predicate. -/
theorem startRecording_default_options_fallback_witness :
    (startRecording (fun _ => false) 30 0 idleSession).isRecording = true ∧
    (startRecording (fun _ => false) 30 0 idleSession).recorder =
      some { options := none, timeslice := max (1000 / 30) 16 } :=
  startRecording_default_options_fallback (fun _ => false) 30 0 idleSession
    (by intro m _; rfl) rfl rfl

/-- C6: calling `startRecording` while already Recording is a no-op — the
entire session state (recording flag, progress, artifact handle and size,
chunk buffer, recorder, revoked-handle log) is returned unchanged, so no side
effect (handle release, buffer reset, encoder start) occurs. -/
theorem startRecording_noop_when_recording (f : String → Bool) (fps now : ℚ)
    (s : SessionState) (h : s.isRecording = true) :
    startRecording f fps now s = s := by
  by_cases hcv : s.canvasPresent = false <;> simp [startRecording, hcv, h]

/-- Witness for `startRecording_noop_when_recording` on `recordingSession`. -/
theorem startRecording_noop_when_recording_witness :
    startRecording (fun _ => true) 30 0 recordingSession = recordingSession :=
  startRecording_noop_when_recording (fun _ => true) 30 0 recordingSession rfl

/-- The particle pseudo-random value is non-negative. -/
theorem rnd_nonneg (seed : ℝ) : 0 ≤ rnd seed := abs_nonneg _

/-- The particle pseudo-random value is at most one. -/
theorem rnd_le_one (seed : ℝ) : rnd seed ≤ 1 :=
  abs_le.mpr ⟨Real.neg_one_le_sin _, Real.sin_le_one _⟩

/-- For a positive modulus, `jsFmod` lands in `[0, b)`. -/
theorem jsFmod_bounds (a b : ℝ) (hb : 0 < b) :
    0 ≤ jsFmod a b ∧ jsFmod a b < b := by
  have key : b * (a / b) = a := by field_simp
  have h : jsFmod a b = b * Int.fract (a / b) := by
    unfold jsFmod
    rw [Int.fract, mul_sub, key]
  constructor
  · rw [h]
    exact mul_nonneg hb.le (Int.fract_nonneg _)
  · rw [h]
    calc b * Int.fract (a / b) < b * 1 :=
          (mul_lt_mul_left hb).mpr (Int.fract_lt_one _)
      _ = b := mul_one b

/-- Each sinusoid mapped through `0.5 * sin x + 0.5` lies in `[0, 1]`. -/
theorem sinusoid_unit (x : ℝ) :
    0 ≤ Real.sin x * 0.5 + 0.5 ∧ Real.sin x * 0.5 + 0.5 ≤ 1 := by
  have h1 := Real.neg_one_le_sin x
  have h2 := Real.sin_le_one x
  constructor <;> nlinarith

/-- C10: every particle drawn by the Particles background has its center
inside the surface (`0 ≤ x < width`, `0 ≤ y < height`) and a radius in
`[0.5, 3]`, for any timestamp and positive surface dimensions. -/
theorem particle_within_bounds (i : ℕ) (t w h : ℝ) (_hi : i < 300)
    (hw : 0 < w) (hh : 0 < h) :
    0 ≤ particleX i t w ∧ particleX i t w < w ∧
    0 ≤ particleY i t h ∧ particleY i t h < h ∧
    0.5 ≤ particleRadius i t ∧ particleRadius i t ≤ 3 := by
  obtain ⟨hx0, hx1⟩ := jsFmod_bounds (rnd (particleSeed i t) * w) w hw
  obtain ⟨hy0, hy1⟩ := jsFmod_bounds (rnd (particleSeed i t + 42) * h) h hh
  have hr0 := rnd_nonneg (particleSeed i t + 99)
  have hr1 := rnd_le_one (particleSeed i t + 99)
  unfold particleX particleY particleRadius
  refine ⟨hx0, hx1, hy0, hy1, by nlinarith, by nlinarith⟩

/-- Witness for `particle_within_bounds`: particle 0 at t = 0 on the 720p
surface. -/
theorem particle_within_bounds_witness :
    0 ≤ particleX 0 0 1280 ∧ particleX 0 0 1280 < 1280 ∧
    0 ≤ particleY 0 0 720 ∧ particleY 0 0 720 < 720 ∧
    0.5 ≤ particleRadius 0 0 ∧ particleRadius 0 0 ≤ 3 :=
  particle_within_bounds 0 0 1280 720 (by norm_num) (by norm_num) (by norm_num)

/-- A sample configuration: 720p Aurora frame. -/
def sampleConfig : RenderConfig :=
  { prompt := "Hello"
    subtitle := "World"
    bgStyle := "Aurora"
    width := 1280
    height := 720 }

/-- C9: `drawFrame` is deterministic — two invocations with identical
configuration and identical timestamp issue identical drawing commands with
identical parameters. -/
theorem drawFrame_deterministic (cfg cfg2 : RenderConfig) (t t2 : ℝ)
    (hc : cfg = cfg2) (ht : t = t2) : drawFrame cfg t = drawFrame cfg2 t2 := by
  rw [hc, ht]

/-- Witness for `drawFrame_deterministic` on `sampleConfig` at t = 0. -/
theorem drawFrame_deterministic_witness :
    drawFrame sampleConfig 0 = drawFrame sampleConfig 0 :=
  drawFrame_deterministic sampleConfig sampleConfig 0 0 rfl rfl

/-- The two gradient stop colors of the Aurora branch (lines 57-58) as a
function of the three mapped sinusoid values `a`, `b`, `c` the source computes
on lines 54-56.  Exactly as in the source, only `a` and `b` are interpolated
into the template strings; the parameter `c` is accepted and never used,
mirroring the dead local `c` of line 56. -/
noncomputable def auroraGradientStops (a b c : ℝ) : List GradientStop :=
  [⟨0, CanvasColor.rgba (↑⌊40 + 80 * a⌋) 80 255 0.9⟩,
   ⟨1, CanvasColor.rgba 10 (↑⌊40 + 140 * b⌋) 120 0.9⟩]

/-- C3, counterexample: the claim that the two stop colors are functions of
all three sinusoids, each scaled into RGB channel ranges, fails at the
concrete input (`sampleConfig`, t = 0).  The Aurora background drawn there is
the full-surface gradient whose stops are `auroraGradientStops` applied to the
three mapped sinusoid values of lines 54-56 — and `auroraGradientStops` gives
identical stop colors when its third argument is swung across the entire range
of a mapped sinusoid, from 0 to 1 (which differ): the third sinusoid
(0.0007 rad/ms, phase 2.7) is scaled into no RGB channel of either stop. -/
theorem aurora_third_sinusoid_unused :
    backgroundCmds sampleConfig 0 = [DrawCmd.fillRect
      (FillStyle.linearGradient 0 0 sampleConfig.width sampleConfig.height
        (auroraGradientStops (Real.sin ((0 : ℝ) * 0.0006) * 0.5 + 0.5)
          (Real.sin ((0 : ℝ) * 0.0009 + 1.2) * 0.5 + 0.5)
          (Real.sin ((0 : ℝ) * 0.0007 + 2.7) * 0.5 + 0.5)))
      0 0 sampleConfig.width sampleConfig.height] ∧
    auroraGradientStops 0.5 0.5 0 = auroraGradientStops 0.5 0.5 1 ∧
    (0 : ℝ) ≠ 1 := by
  refine ⟨?_, rfl, by norm_num⟩
  simp [backgroundCmds, auroraGradientStops, sampleConfig]

/-- C3, amended: for every timestamp, the Aurora branch's first command fills
the whole surface (`fillRect 0 0 width height`) with a linear gradient whose
two stop colors oscillate as functions of the first two of the three sinusoids
the source computes — angular frequencies 0.0006 and 0.0009 rad/ms, phases 0
and 1.2 rad, each mapped through `0.5 * sin x + 0.5` into [0, 1] and scaled
into the RGB channel ranges `40 + 80 * _` and `40 + 140 * _`; the third
sinusoid (0.0007 rad/ms, phase 2.7 rad) is computed, lies in [0, 1], but
enters neither stop color: replacing its value by any `c1`, `c2` leaves the
stops unchanged. -/
theorem aurora_gradient_two_sinusoids (cfg : RenderConfig) (t c1 c2 : ℝ)
    (hbg : cfg.bgStyle = "Aurora") :
    (drawFrame cfg t).head? = some (DrawCmd.fillRect
      (FillStyle.linearGradient 0 0 cfg.width cfg.height
        (auroraGradientStops (Real.sin (t * 0.0006) * 0.5 + 0.5)
          (Real.sin (t * 0.0009 + 1.2) * 0.5 + 0.5)
          (Real.sin (t * 0.0007 + 2.7) * 0.5 + 0.5)))
      0 0 cfg.width cfg.height) ∧
    (0 ≤ Real.sin (t * 0.0006) * 0.5 + 0.5 ∧
      Real.sin (t * 0.0006) * 0.5 + 0.5 ≤ 1) ∧
    (0 ≤ Real.sin (t * 0.0009 + 1.2) * 0.5 + 0.5 ∧
      Real.sin (t * 0.0009 + 1.2) * 0.5 + 0.5 ≤ 1) ∧
    (0 ≤ Real.sin (t * 0.0007 + 2.7) * 0.5 + 0.5 ∧
      Real.sin (t * 0.0007 + 2.7) * 0.5 + 0.5 ≤ 1) ∧
    auroraGradientStops (Real.sin (t * 0.0006) * 0.5 + 0.5)
        (Real.sin (t * 0.0009 + 1.2) * 0.5 + 0.5) c1 =
      auroraGradientStops (Real.sin (t * 0.0006) * 0.5 + 0.5)
        (Real.sin (t * 0.0009 + 1.2) * 0.5 + 0.5) c2 := by
  refine ⟨?_, sinusoid_unit _, sinusoid_unit _, sinusoid_unit _, rfl⟩
  simp [drawFrame, backgroundCmds, auroraGradientStops, hbg]

/-- Witness for `aurora_gradient_two_sinusoids` on `sampleConfig` at t = 0
with the third-argument values 0 and 1. -/
theorem aurora_gradient_two_sinusoids_witness :
    (drawFrame sampleConfig 0).head? = some (DrawCmd.fillRect
      (FillStyle.linearGradient 0 0 sampleConfig.width sampleConfig.height
        (auroraGradientStops (Real.sin ((0 : ℝ) * 0.0006) * 0.5 + 0.5)
          (Real.sin ((0 : ℝ) * 0.0009 + 1.2) * 0.5 + 0.5)
          (Real.sin ((0 : ℝ) * 0.0007 + 2.7) * 0.5 + 0.5)))
      0 0 sampleConfig.width sampleConfig.height) ∧
    (0 ≤ Real.sin ((0 : ℝ) * 0.0006) * 0.5 + 0.5 ∧
      Real.sin ((0 : ℝ) * 0.0006) * 0.5 + 0.5 ≤ 1) ∧
    (0 ≤ Real.sin ((0 : ℝ) * 0.0009 + 1.2) * 0.5 + 0.5 ∧
      Real.sin ((0 : ℝ) * 0.0009 + 1.2) * 0.5 + 0.5 ≤ 1) ∧
    (0 ≤ Real.sin ((0 : ℝ) * 0.0007 + 2.7) * 0.5 + 0.5 ∧
      Real.sin ((0 : ℝ) * 0.0007 + 2.7) * 0.5 + 0.5 ≤ 1) ∧
    auroraGradientStops (Real.sin ((0 : ℝ) * 0.0006) * 0.5 + 0.5)
        (Real.sin ((0 : ℝ) * 0.0009 + 1.2) * 0.5 + 0.5) 0 =
      auroraGradientStops (Real.sin ((0 : ℝ) * 0.0006) * 0.5 + 0.5)
        (Real.sin ((0 : ℝ) * 0.0009 + 1.2) * 0.5 + 0.5) 1 :=
  aurora_gradient_two_sinusoids sampleConfig 0 0 1 rfl

/-- C7: the strings a frame draws are exactly the title — the placeholder
`"Your animated title"` when the configured title trims to empty (empty or
whitespace-only), the trimmed title otherwise — followed by the trimmed
subtitle, which is omitted entirely when the subtitle trims to empty. -/
theorem title_fallback_subtitle_omission (cfg : RenderConfig) (t : ℝ) :
    textsDrawn cfg t =
      (if cfg.prompt.trim = "" then "Your animated title"
        else cfg.prompt.trim) ::
      (if cfg.subtitle.trim = "" then [] else [cfg.subtitle.trim]) := by
  have hbg : (backgroundCmds cfg t).filterMap drawnText = [] := by
    unfold backgroundCmds
    split
    · rfl
    · split
      · simp [drawnText, List.filterMap_map, Function.comp]
      · rfl
  have hborder : (borderCmds cfg).filterMap drawnText = [] := rfl
  have htext : (textCmds cfg t).filterMap drawnText =
      (if cfg.prompt.trim = "" then "Your animated title"
        else cfg.prompt.trim) ::
      (if cfg.subtitle.trim = "" then [] else [cfg.subtitle.trim]) := by
    unfold textCmds
    by_cases hsub : cfg.subtitle.trim = "" <;>
      simp [hsub, drawnText]
  unfold textsDrawn drawFrame
  rw [List.filterMap_append, List.filterMap_append, hbg, hborder, htext]
  simp
